import Mathlib

/-!
Verification of the mortgage calculation engine (formulas.js, config.js,
state.js) of the `pretimmo` repository.

The JavaScript numbers are modelled as exact rationals (`ℚ`): every
formula in the source is built from field operations and integer powers,
so the rational model reproduces the real-number semantics of the code
exactly; claims stated "within floating tolerance" become exact
statements here.  JavaScript falsy guards (`if (!x || x <= 0) return 0`)
on numeric arguments are modelled as `if x ≤ 0 ∨ x = 0 ... then 0`
branches, durations in years are `ℕ` (they come from integer sliders),
and the bounded `while`/`for` loops of the iterative solvers are
modelled as fuel recursion with the fuel set to the iteration cap of the
source.  `undefined`/`NaN` results (possible in `interpolateRate` when a
rate-table anchor is absent) are modelled with `Option ℚ`, `none`
standing for a non-numeric result.
-/

/-! ## Configuration constants (config.js, `FormulaConstants`) -/

/-- config.js: debt ratio of the 35 percent rule. -/
def debtRatioConst : ℚ := 0.35

/-- config.js: emolument sliding-scale rate of bracket 1 (up to 6500). -/
def emolumentBracket1 : ℚ := 0.03870

/-- config.js: emolument rate of bracket 2 (6500 to 17000). -/
def emolumentBracket2 : ℚ := 0.01596

/-- config.js: emolument rate of bracket 3 (17000 to 60000). -/
def emolumentBracket3 : ℚ := 0.01064

/-- config.js: emolument rate of bracket 4 (above 60000). -/
def emolumentBracket4 : ℚ := 0.00799

/-- config.js: emolument threshold tier1. -/
def emolumentTier1 : ℚ := 6500

/-- config.js: emolument threshold tier2. -/
def emolumentTier2 : ℚ := 17000

/-- config.js: emolument threshold tier3. -/
def emolumentTier3 : ℚ := 60000

/-- config.js: TVA factor applied to the emoluments. -/
def emolumentTVA : ℚ := 1.20

/-- config.js: fixed disbursement estimate in the notary fees. -/
def deboursConst : ℚ := 1000

/-- config.js: rate of the security contribution. -/
def contributionRate : ℚ := 0.001

/-- config.js: minimum of the security contribution. -/
def contributionMinimum : ℚ := 15

/-- config.js: caution commission threshold. -/
def cautionThreshold : ℚ := 500000

/-- config.js: caution commission rate below the threshold. -/
def commissionRateLow : ℚ := 0.012

/-- config.js: fixed caution commission part above the threshold. -/
def commissionFixed : ℚ := 6000

/-- config.js: caution marginal commission rate above the threshold. -/
def commissionRateHigh : ℚ := 0.005

/-- config.js: rate of the mutual guarantee fund (FMG). -/
def fmgRate : ℚ := 0.005

/-- config.js: minimum total caution. -/
def cautionMinimum : ℚ := 1000

/-- config.js: iteration cap of the fixed-point solvers. -/
def iterationMaxIterations : ℕ := 10

/-- config.js: convergence threshold (100 euros) of the fixed-point solvers. -/
def convergenceThreshold : ℚ := 100

/-- config.js: initial fees estimate (10 percent) used by `calcRequiredLoan`. -/
def initialFeesEstimate : ℚ := 0.10

/-- Property category, `'old'` or `'new'` in the source. -/
inductive PropertyType where
  | old : PropertyType
  | new : PropertyType

/-- config.js: property transfer tax rate per category
(`propertyTax.new = 0.00715`, `propertyTax.old = 0.058`). -/
def propertyTaxRate : PropertyType → ℚ
  | PropertyType.new => 0.00715
  | PropertyType.old => 0.058

/-! ## Income and capacity (formulas.js section 1) -/

/-- formulas.js `calcMaxMonthlyPayment`: income times the debt ratio minus
charges, clamped at zero. -/
def calcMaxMonthlyPayment (income charges : ℚ) : ℚ :=
  max 0 (income * debtRatioConst - charges)

/-! ## Annuity mathematics (formulas.js section 4) -/

/-- formulas.js `calcMonthlyPayment`.  The leading falsy guard of the source
(`!loan || loan <= 0 || !annualRate || !durationYears`) rejects a zero
annual rate, so the inner zero-rate branch is kept but unreachable. -/
def calcMonthlyPayment (loan annualRate : ℚ) (durationYears : ℕ) : ℚ :=
  if loan ≤ 0 ∨ annualRate = 0 ∨ durationYears = 0 then 0
  else
    let monthlyRate := annualRate / 12 / 100
    let numMonths := durationYears * 12
    if monthlyRate = 0 then loan / (numMonths : ℚ)
    else loan * (monthlyRate * (1 + monthlyRate) ^ numMonths) /
      ((1 + monthlyRate) ^ numMonths - 1)

/-- formulas.js `calcMaxLoan`: annuity formula solved for the principal.
`Math.pow(1 + r, -n)` is modelled as `((1 + r) ^ n)⁻¹`. -/
def calcMaxLoan (monthlyPayment annualRate : ℚ) (durationYears : ℕ) : ℚ :=
  if monthlyPayment ≤ 0 ∨ annualRate = 0 ∨ durationYears = 0 then 0
  else
    let monthlyRate := annualRate / 12 / 100
    let numMonths := durationYears * 12
    if monthlyRate = 0 then monthlyPayment * (numMonths : ℚ)
    else monthlyPayment * (1 - ((1 + monthlyRate) ^ numMonths)⁻¹) / monthlyRate

/-! ## Insurance (formulas.js section 2) -/

/-- formulas.js `calcMonthlyInsurance`: insurance on the initial capital,
with the falsy guard of the source. -/
def calcMonthlyInsurance (borrowedCapital insuranceRate : ℚ) : ℚ :=
  if borrowedCapital ≤ 0 ∨ insuranceRate = 0 then 0
  else borrowedCapital * insuranceRate / 12

/-! ## Notary fees (formulas.js section 5) -/

/-- formulas.js `calcEmoluments`: the four-tier sliding scale applied from
the top tier down (the source mutates `price`; here each step is a `let`),
then the TVA factor. -/
def calcEmoluments (price : ℚ) : ℚ :=
  let e4 := if price > emolumentTier3 then (price - emolumentTier3) * emolumentBracket4 else 0
  let p3 := if price > emolumentTier3 then emolumentTier3 else price
  let e3 := if p3 > emolumentTier2 then (p3 - emolumentTier2) * emolumentBracket3 else 0
  let p2 := if p3 > emolumentTier2 then emolumentTier2 else p3
  let e2 := if p2 > emolumentTier1 then (p2 - emolumentTier1) * emolumentBracket2 else 0
  let p1 := if p2 > emolumentTier1 then emolumentTier1 else p2
  let e1 := if p1 > 0 then p1 * emolumentBracket1 else 0
  (e4 + e3 + e2 + e1) * emolumentTVA

/-- formulas.js `calcNotaryFees`: emoluments plus the category tax plus the
fixed disbursements plus the floored security contribution. -/
def calcNotaryFees (propertyPrice : ℚ) (propertyType : PropertyType) : ℚ :=
  if propertyPrice ≤ 0 then 0
  else
    calcEmoluments propertyPrice
      + propertyPrice * propertyTaxRate propertyType
      + deboursConst
      + max contributionMinimum (propertyPrice * contributionRate)

/-! ## Caution (formulas.js section 6) -/

/-- formulas.js `calcCautionCreditLogement`: two-tier commission plus the
FMG, floored at the configured minimum. -/
def calcCautionCreditLogement (loanAmount : ℚ) : ℚ :=
  if loanAmount ≤ 0 then 0
  else
    let commission :=
      if loanAmount ≤ cautionThreshold then loanAmount * commissionRateLow
      else commissionFixed + (loanAmount - cautionThreshold) * commissionRateHigh
    let fmg := loanAmount * fmgRate
    max cautionMinimum (commission + fmg)

/-! ## Required loan (formulas.js section 8) -/

/-- Result record of formulas.js `calcRequiredLoan`. -/
structure RequiredLoanResult where
  loan : ℚ
  caution : ℚ
  notaryFees : ℚ
  totalFees : ℚ

/-- The `while` loop of `calcRequiredLoan`, as fuel recursion.  The loop of
the source runs while `|estimatedLoan - previousLoan| > convergenceThreshold`
and the iteration counter is below the cap; the negative-loan branch sets the
estimate to 0 and breaks. -/
def requiredLoanLoop (propertyPrice notaryFees fraisDossier capital : ℚ) :
    ℕ → ℚ → ℚ → ℚ
  | 0, est, _ => est
  | fuel + 1, est, prev =>
    if |est - prev| ≤ convergenceThreshold then est
    else
      let caution := calcCautionCreditLogement est
      let totalFees := notaryFees + fraisDossier + caution
      let next := propertyPrice + totalFees - capital
      if next < 0 then 0
      else requiredLoanLoop propertyPrice notaryFees fraisDossier capital fuel next est

/-- formulas.js `calcRequiredLoan`: iteratively resolves the loan/caution
circular dependency, starting from the flat 10 percent fees estimate. -/
def calcRequiredLoan (propertyPrice capital fraisDossier : ℚ)
    (propertyType : PropertyType) : RequiredLoanResult :=
  if propertyPrice ≤ 0 then ⟨0, 0, 0, 0⟩
  else
    let notaryFees := calcNotaryFees propertyPrice propertyType
    let est0 := propertyPrice + propertyPrice * initialFeesEstimate - capital
    let est := requiredLoanLoop propertyPrice notaryFees fraisDossier capital
      iterationMaxIterations est0 0
    let finalCaution := calcCautionCreditLogement est
    ⟨max 0 est, finalCaution, notaryFees, notaryFees + fraisDossier + finalCaution⟩

/-! ## Amortization table (formulas.js section 9) -/

/-- One row of the amortization table. -/
structure AmortRow where
  month : ℕ
  year : ℕ
  payment : ℚ
  principalPart : ℚ
  interestPart : ℚ
  insurance : ℚ
  totalPaid : ℚ
  remainingCapital : ℚ

/-- The `for` loop of `generateAmortizationTable`.  The fuel counts the
months still to generate, so the current month is `numMonths - fuel + 1`;
the running remaining capital is zeroed on the final month before being
stored (clamped at 0 in the row, as in the source). -/
def amortAux (monthlyPayment monthlyInsurance monthlyRate : ℚ) (numMonths : ℕ) :
    ℕ → ℚ → ℚ → List AmortRow
  | 0, _, _ => []
  | fuel + 1, rem, paid =>
    let month := numMonths - fuel
    let interestPart := rem * monthlyRate
    let principalPart := monthlyPayment - interestPart
    let remNext := if month = numMonths then 0 else rem - principalPart
    let paidNext := paid + monthlyPayment + monthlyInsurance
    { month := month
      year := (month + 11) / 12
      payment := monthlyPayment
      principalPart := principalPart
      interestPart := interestPart
      insurance := monthlyInsurance
      totalPaid := paidNext
      remainingCapital := max 0 remNext } ::
      amortAux monthlyPayment monthlyInsurance monthlyRate numMonths fuel remNext paidNext

/-- formulas.js `generateAmortizationTable`. -/
def generateAmortizationTable (loan annualRate : ℚ) (durationYears : ℕ)
    (insuranceRate : ℚ) : List AmortRow :=
  if loan ≤ 0 ∨ annualRate = 0 ∨ durationYears = 0 then []
  else
    let monthlyRate := annualRate / 12 / 100
    let numMonths := durationYears * 12
    let monthlyPayment := calcMonthlyPayment loan annualRate durationYears
    let monthlyInsurance := calcMonthlyInsurance loan insuranceRate
    amortAux monthlyPayment monthlyInsurance monthlyRate numMonths numMonths loan 0

/-! ## Rate interpolation (formulas.js section 3)

The rate table of the application holds the anchors 15, 20 and 25; a slot
may be absent (`undefined` in JavaScript), modelled by `Option ℚ`.  The
result is an `Option ℚ` as well: `none` models the non-numeric outcomes
(`undefined` when an absent slot is returned directly, `NaN` when an absent
slot enters the interpolation arithmetic). -/

/-- The rate table keyed at the duration anchors 15, 20, 25. -/
structure RateTable where
  r15 : Option ℚ
  r20 : Option ℚ
  r25 : Option ℚ

/-- The property access `rates[duration]` of the source on a table holding
exactly the three anchors. -/
def rateLookup (rt : RateTable) (d : ℚ) : Option ℚ :=
  if d = 15 then rt.r15 else if d = 20 then rt.r20 else if d = 25 then rt.r25 else none

/-- JavaScript truthiness of a possibly absent number: absent and 0 are falsy. -/
def optionTruthy : Option ℚ → Bool
  | none => false
  | some v => decide (v ≠ 0)

/-- formulas.js `interpolateRate`: exact truthy match, endpoint fallback
below 15 and above 25, linear interpolation between the surrounding anchors
otherwise. -/
def interpolateRate (duration : ℚ) (rt : RateTable) : Option ℚ :=
  if duration = 0 then some 0
  else if optionTruthy (rateLookup rt duration) then rateLookup rt duration
  else if duration < 15 then rt.r15
  else if duration ≤ 20 then
    match rt.r15, rt.r20 with
    | some rate1, some rate2 => some (rate1 + (rate2 - rate1) * (duration - 15) / (20 - 15))
    | _, _ => none
  else if duration ≤ 25 then
    match rt.r20, rt.r25 with
    | some rate1, some rate2 => some (rate1 + (rate2 - rate1) * (duration - 20) / (25 - 20))
    | _, _ => none
  else rt.r25

/-! ## TAEG (formulas.js section 10, final revision)

The source hands an objective function to the external optimizer
`optimjs.minimize_Powell` inside a `try` block.  The optimizer is a
third-party library outside this repository, so its outcome is an opaque
parameter here: `some t` models a run returning candidate `t`, `none`
models a thrown exception (caught by the `catch`, which returns 0).  On the
sanity-check path (clamped candidate outside `[0, 50]`) the source calls
`console.error` with an identifier that is not in scope, which throws and
is caught by the same `catch`, so that path also yields 0. -/

/-- formulas.js `calcTAEG` (final revision): validation guard, clamp of the
optimizer candidate to at least the nominal rate, then the `[0, 50]` sanity
check whose failure (like a thrown optimizer) produces 0. -/
def calcTAEG (optimizerResult : Option ℚ) (loan monthlyPayment : ℚ)
    (durationYears : ℕ) (nominalRate insuranceRate : ℚ) : ℚ :=
  if loan ≤ 0 ∨ monthlyPayment ≤ 0 ∨ durationYears = 0 then 0
  else
    match optimizerResult with
    | none => 0
    | some t =>
      let optimizedTAEG := if t < nominalRate then nominalRate else t
      if optimizedTAEG < 0 ∨ optimizedTAEG > 50 then 0
      else optimizedTAEG

/-! ## Gigogne (formulas.js section 11, final revision) -/

/-- The local `calcAnnuityFactor` of `calcSmoothMensuality`:
`A(r, n) = (1 - (1 + r)^(-n)) / r`, with `n` at rate 0. -/
def calcAnnuityFactor (r : ℚ) (n : ℕ) : ℚ :=
  if r = 0 then (n : ℚ) else (1 - ((1 + r) ^ n)⁻¹) / r

/-- The inline secondary-annuity payment `m2` computed identically in
`calcSmoothMensuality`, `checkConstraints` and the schedule generator:
`p2 / n` at rate 0, else the standard annuity formula on the monthly rate. -/
def calcM2 (p2 rm2 : ℚ) (nm2 : ℕ) : ℚ :=
  if rm2 = 0 then p2 / (nm2 : ℚ)
  else p2 * (rm2 * (1 + rm2) ^ nm2) / ((1 + rm2) ^ nm2 - 1)

/-- formulas.js `calcSmoothMensuality`:
`M = (p1 + m2 * A(r1, n2)) / A(r1, n1)`. -/
def calcSmoothMensuality (p1 r1 : ℚ) (n1 : ℕ) (p2 r2 : ℚ) (n2 : ℕ) : ℚ :=
  if p1 < 0 ∨ p2 < 0 ∨ n1 = 0 ∨ n2 = 0 then 0
  else
    let rm1 := r1 / 12 / 100
    let rm2 := r2 / 12 / 100
    let nm1 := n1 * 12
    let nm2 := n2 * 12
    let m2 := calcM2 p2 rm2 nm2
    (p1 + m2 * calcAnnuityFactor rm1 nm2) / calcAnnuityFactor rm1 nm1

/-- The local `checkConstraints` of `calcOptimalSecondaryAmount`: the
no-negative-amortization test `M - m2 ≥ p1 * r1_monthly - 0.01`. -/
def checkConstraints (totalLoan r1 : ℚ) (n1 : ℕ) (r2 : ℚ) (n2 : ℕ) (p2 : ℚ) : Bool :=
  let p1 := totalLoan - p2
  let M := calcSmoothMensuality p1 r1 n1 p2 r2 n2
  let m2 := calcM2 p2 (r2 / 12 / 100) (n2 * 12)
  decide (p1 * (r1 / 12 / 100) - 1 / 100 ≤ M - m2)

/-- The 20-iteration `for` loop of the binary search in
`calcOptimalSecondaryAmount`. -/
def gigogneSearchLoop (totalLoan r1 : ℚ) (n1 : ℕ) (r2 : ℚ) (n2 : ℕ) :
    ℕ → ℚ → ℚ → ℚ → ℚ
  | 0, _, _, optimal => optimal
  | fuel + 1, low, high, optimal =>
    let mid := (low + high) / 2
    if checkConstraints totalLoan r1 n1 r2 n2 mid then
      gigogneSearchLoop totalLoan r1 n1 r2 n2 fuel mid high mid
    else
      gigogneSearchLoop totalLoan r1 n1 r2 n2 fuel low mid optimal

/-- formulas.js `calcOptimalSecondaryAmount`: cap at
`min maxAmount totalLoan`, early return if the cap already satisfies the
constraint, otherwise binary search and `Math.floor` of the optimum. -/
def calcOptimalSecondaryAmount (totalLoan r1 : ℚ) (n1 : ℕ) (r2 : ℚ) (n2 : ℕ)
    (maxAmount : ℚ) : ℚ :=
  if totalLoan ≤ 0 then 0
  else
    let absoluteMaxP2 := min maxAmount totalLoan
    if checkConstraints totalLoan r1 n1 r2 n2 absoluteMaxP2 then absoluteMaxP2
    else ((⌊gigogneSearchLoop totalLoan r1 n1 r2 n2 20 0 absoluteMaxP2 0⌋ : ℤ) : ℚ)

/-- state.js `setGigogneOptimalAmount`: the stored actual amount is the
computed optimum clamped by the user-defined maximum
(`Math.min(optimal, state.gigogne.maxAmount)`). -/
def setGigogneActualAmount (optimal maxAmount : ℚ) : ℚ :=
  min optimal maxAmount

/-! ## Basic facts and claim theorems -/

/-- C10: `calcMaxMonthlyPayment` is the 35-percent debt-ratio budget
`income * 0.35 - charges` clamped at zero, hence never negative. -/
theorem C10_maxMonthlyPayment_clamped (income charges : ℚ) :
    calcMaxMonthlyPayment income charges = max 0 (income * (35 / 100) - charges) ∧
      0 ≤ calcMaxMonthlyPayment income charges := by
  constructor
  · norm_num [calcMaxMonthlyPayment, debtRatioConst]
  · unfold calcMaxMonthlyPayment
    exact le_max_left 0 _

/-- C9: at the exact tier-3 boundary price 60000, the emoluments are the
cumulative value of the three lower brackets only (no tier-4 contribution),
times the TVA factor; numerically 1051.98. -/
theorem C9_emoluments_tier3_boundary :
    calcEmoluments 60000 =
      ((60000 - 17000) * emolumentBracket3 + (17000 - 6500) * emolumentBracket2
        + 6500 * emolumentBracket1) * emolumentTVA ∧
      calcEmoluments 60000 = 52599 / 50 := by
  constructor <;>
    norm_num [calcEmoluments, emolumentTier1, emolumentTier2, emolumentTier3,
      emolumentBracket1, emolumentBracket2, emolumentBracket3, emolumentBracket4,
      emolumentTVA]

/-- C6 (amended): at annual rate 0 the falsy guard of `calcMonthlyPayment`
fires and the function returns 0 for every principal and duration; the
straight-line branch `loan / numMonths` of the source is unreachable. -/
theorem C6_zero_rate_returns_zero (loan : ℚ) (durationYears : ℕ) :
    calcMonthlyPayment loan 0 durationYears = 0 := by
  simp [calcMonthlyPayment]

/-- C6 (counterexample): for principal 1200 over 1 year at rate 0 the claim
predicts the straight-line payment 1200 / 12 = 100, but the code returns 0. -/
theorem C6_counterexample :
    calcMonthlyPayment 1200 0 1 = 0 ∧ (1200 : ℚ) / (1 * 12) = 100 ∧ (0 : ℚ) ≠ 100 :=
  ⟨by simp [calcMonthlyPayment], by norm_num, by norm_num⟩

/-- C1: for every positive principal, rate and duration, the monthly payment
fed back into `calcMaxLoan` at the same rate and duration reconstructs the
principal exactly (the rational model is exact, so "within floating
tolerance" holds as an equality). -/
theorem C1_payment_maxLoan_roundtrip (P r : ℚ) (n : ℕ)
    (hP : 0 < P) (hr : 0 < r) (hn : 0 < n) :
    calcMaxLoan (calcMonthlyPayment P r n) r n = P := by
  have hr0 : r ≠ 0 := ne_of_gt hr
  have hn0 : n ≠ 0 := Nat.pos_iff_ne_zero.mp hn
  have hmr : (0 : ℚ) < r / 12 / 100 := by positivity
  have hmr0 : r / 12 / 100 ≠ 0 := ne_of_gt hmr
  have hx : 1 < (1 + r / 12 / 100) ^ (n * 12) :=
    one_lt_pow₀ (by linarith) (by simp [hn0])
  have hxpos : (0 : ℚ) < (1 + r / 12 / 100) ^ (n * 12) := by positivity
  have hguard : ¬(P ≤ 0 ∨ r = 0 ∨ n = 0) := by
    push_neg
    exact ⟨hP, hr0, hn0⟩
  have hpay : calcMonthlyPayment P r n =
      P * ((r / 12 / 100) * (1 + r / 12 / 100) ^ (n * 12)) /
        ((1 + r / 12 / 100) ^ (n * 12) - 1) := by
    simp only [calcMonthlyPayment]
    rw [if_neg hguard, if_neg hmr0]
  have hpaypos : 0 < calcMonthlyPayment P r n := by
    rw [hpay]
    apply div_pos
    · positivity
    · linarith
  have hguard2 : ¬(calcMonthlyPayment P r n ≤ 0 ∨ r = 0 ∨ n = 0) := by
    push_neg
    exact ⟨hpaypos, hr0, hn0⟩
  have hxne : (1 + r / 12 / 100) ^ (n * 12) ≠ 0 := ne_of_gt hxpos
  have hx1 : (1 + r / 12 / 100) ^ (n * 12) - 1 ≠ 0 := sub_ne_zero.mpr (ne_of_gt hx)
  simp only [calcMaxLoan]
  rw [if_neg hguard2, if_neg hmr0, hpay]
  set m := r / 12 / 100 with hm
  set x := (1 + m) ^ (n * 12) with hxdef
  field_simp
  exact Or.inl (mul_comm m x)

/-- C1 (witness): the round trip at principal 1000, rate 12 percent,
duration 1 year. -/
theorem C1_witness :
    (0 : ℚ) < 1000 ∧ (0 : ℚ) < 12 ∧ 0 < 1 ∧
      calcMaxLoan (calcMonthlyPayment 1000 12 1) 12 1 = 1000 :=
  ⟨by norm_num, by norm_num, by norm_num,
    C1_payment_maxLoan_roundtrip 1000 12 1 (by norm_num) (by norm_num) (by norm_num)⟩

/-! ## Amortization invariants (C2) -/

/-- The amortization loop produces exactly one row per unit of fuel. -/
lemma amortAux_length (P I R : ℚ) (N : ℕ) :
    ∀ (k : ℕ) (rem paid : ℚ), (amortAux P I R N k rem paid).length = k := by
  intro k
  induction k with
  | zero => intro rem paid; rfl
  | succ k ih => intro rem paid; simp [amortAux, ih]

/-- Every generated row splits its payment exactly into principal plus
interest, and its stored remaining capital is clamped at zero. -/
lemma amortAux_mem (P I R : ℚ) (N : ℕ) :
    ∀ (k : ℕ) (rem paid : ℚ) (row : AmortRow), row ∈ amortAux P I R N k rem paid →
      row.principalPart + row.interestPart = row.payment ∧ 0 ≤ row.remainingCapital := by
  intro k
  induction k with
  | zero => intro rem paid row h; simp [amortAux] at h
  | succ k ih =>
    intro rem paid row h
    simp only [amortAux, List.mem_cons] at h
    rcases h with h | h
    · subst h
      constructor
      · simp
      · exact le_max_left 0 _
    · exact ih _ _ _ h

/-- The last generated row has remaining capital exactly 0: the final month
equals `N`, so the running balance is zeroed before being stored. -/
lemma amortAux_last (P I R : ℚ) (N : ℕ) :
    ∀ (k : ℕ) (rem paid : ℚ), ∃ r : AmortRow,
      (amortAux P I R N (k + 1) rem paid).getLast? = some r ∧ r.remainingCapital = 0 := by
  intro k
  induction k with
  | zero =>
    intro rem paid
    simp only [amortAux]
    refine ⟨_, rfl, ?_⟩
    simp
  | succ k ih =>
    intro rem paid
    obtain ⟨r, hr, hz⟩ :=
      ih (if N - (k + 1) = N then 0 else rem - (P - rem * R)) (paid + P + I)
    refine ⟨r, ?_, hz⟩
    simp only [amortAux] at hr ⊢
    rw [List.getLast?_cons_cons]
    exact hr

/-- C2: for every positive loan, rate and duration, the amortization table
has exactly `durationYears * 12` rows, every row satisfies
`principalPart + interestPart = payment` (exactly, hence within `1e-6`),
every stored remaining capital is nonnegative, and the final row's
remaining capital is exactly 0. -/
theorem C2_amortization_invariants (loan annualRate insuranceRate : ℚ) (n : ℕ)
    (hl : 0 < loan) (hr : 0 < annualRate) (hn : 0 < n) :
    (generateAmortizationTable loan annualRate n insuranceRate).length = n * 12 ∧
    (∀ row ∈ generateAmortizationTable loan annualRate n insuranceRate,
        row.principalPart + row.interestPart = row.payment ∧
        |row.principalPart + row.interestPart - row.payment| ≤ 1 / 1000000 ∧
        0 ≤ row.remainingCapital) ∧
    ∃ lastRow : AmortRow,
      (generateAmortizationTable loan annualRate n insuranceRate).getLast? = some lastRow ∧
        lastRow.remainingCapital = 0 := by
  have hguard : ¬(loan ≤ 0 ∨ annualRate = 0 ∨ n = 0) := by
    push_neg
    exact ⟨hl, ne_of_gt hr, Nat.pos_iff_ne_zero.mp hn⟩
  have hgen : generateAmortizationTable loan annualRate n insuranceRate =
      amortAux (calcMonthlyPayment loan annualRate n)
        (calcMonthlyInsurance loan insuranceRate)
        (annualRate / 12 / 100) (n * 12) (n * 12) loan 0 := by
    simp only [generateAmortizationTable]
    rw [if_neg hguard]
  rw [hgen]
  refine ⟨amortAux_length _ _ _ _ _ _ _, ?_, ?_⟩
  · intro row hrow
    obtain ⟨h1, h2⟩ := amortAux_mem _ _ _ _ _ _ _ row hrow
    refine ⟨h1, ?_, h2⟩
    rw [h1, sub_self, abs_zero]
    norm_num
  · obtain ⟨m, hm⟩ : ∃ m, n * 12 = m + 1 :=
      ⟨n * 12 - 1, by omega⟩
    rw [hm]
    exact amortAux_last _ _ _ _ m loan 0

/-- C2 (witness): the invariants at loan 1000, rate 12 percent, 1 year,
no insurance. -/
theorem C2_witness :
    (0 : ℚ) < 1000 ∧ (0 : ℚ) < 12 ∧ 0 < 1 ∧
    ((generateAmortizationTable 1000 12 1 0).length = 1 * 12 ∧
     (∀ row ∈ generateAmortizationTable 1000 12 1 0,
         row.principalPart + row.interestPart = row.payment ∧
         |row.principalPart + row.interestPart - row.payment| ≤ 1 / 1000000 ∧
         0 ≤ row.remainingCapital) ∧
     ∃ lastRow : AmortRow,
       (generateAmortizationTable 1000 12 1 0).getLast? = some lastRow ∧
         lastRow.remainingCapital = 0) :=
  ⟨by norm_num, by norm_num, by norm_num,
    C2_amortization_invariants 1000 12 0 1 (by norm_num) (by norm_num) (by norm_num)⟩

/-! ## TAEG result range (C3) -/

/-- C3 (counterexample): with the valid input loan 100000, payment 600,
duration 20 years and nominal rate 60 percent, the sanity check
`optimizedTAEG > 50` fires after the clamp, so `calcTAEG` returns 0 — below
the nominal rate — both when the optimizer returns a candidate and when it
throws; the claim that every failure path returns an estimate or the
nominal-rate floor (hence a value at least the nominal rate) is false. -/
theorem C3_counterexample :
    calcTAEG (some 60) 100000 600 20 60 0 = 0 ∧
    calcTAEG none 100000 600 20 60 0 = 0 ∧
    ¬((60 : ℚ) ≤ calcTAEG (some 60) 100000 600 20 60 0) := by
  refine ⟨?_, ?_, ?_⟩ <;> norm_num [calcTAEG]

/-- C3 (amended): for every valid input and every optimizer outcome,
`calcTAEG` returns a rational number on every code path, and that number is
either the failure value 0 (thrown optimizer, or nominal-clamped candidate
outside `[0, 50]`) or a value between the nominal rate and 50. -/
theorem C3_taeg_range (optimizerResult : Option ℚ)
    (loan monthlyPayment nominalRate insuranceRate : ℚ) (durationYears : ℕ)
    (hl : 0 < loan) (hm : 0 < monthlyPayment) (hd : 0 < durationYears) :
    calcTAEG optimizerResult loan monthlyPayment durationYears nominalRate insuranceRate = 0 ∨
    (nominalRate ≤ calcTAEG optimizerResult loan monthlyPayment durationYears
        nominalRate insuranceRate ∧
      calcTAEG optimizerResult loan monthlyPayment durationYears nominalRate
        insuranceRate ≤ 50) := by
  have hguard : ¬(loan ≤ 0 ∨ monthlyPayment ≤ 0 ∨ durationYears = 0) := by
    push_neg
    exact ⟨hl, hm, Nat.pos_iff_ne_zero.mp hd⟩
  unfold calcTAEG
  rw [if_neg hguard]
  cases optimizerResult with
  | none => exact Or.inl rfl
  | some t =>
    simp only
    by_cases hclamp : t < nominalRate
    · rw [if_pos hclamp]
      by_cases hrange : nominalRate < 0 ∨ nominalRate > 50
      · rw [if_pos hrange]
        exact Or.inl rfl
      · rw [if_neg hrange]
        push_neg at hrange
        exact Or.inr ⟨le_refl _, hrange.2⟩
    · rw [if_neg hclamp]
      push_neg at hclamp
      by_cases hrange : t < 0 ∨ t > 50
      · rw [if_pos hrange]
        exact Or.inl rfl
      · rw [if_neg hrange]
        push_neg at hrange
        exact Or.inr ⟨hclamp, hrange.2⟩

/-- C3 (witness): a successful optimizer run at candidate 4 with nominal
rate 3 lands in the clamped range. -/
theorem C3_witness :
    (0 : ℚ) < 100000 ∧ (0 : ℚ) < 600 ∧ 0 < 20 ∧
    (calcTAEG (some 4) 100000 600 20 3 0 = 0 ∨
      ((3 : ℚ) ≤ calcTAEG (some 4) 100000 600 20 3 0 ∧
        calcTAEG (some 4) 100000 600 20 3 0 ≤ 50)) :=
  ⟨by norm_num, by norm_num, by norm_num,
    C3_taeg_range (some 4) 100000 600 3 0 20 (by norm_num) (by norm_num) (by norm_num)⟩

/-! ## Rate interpolation fallback (C8) -/

/-- C8 (counterexample): duration 10 with the 15-year anchor absent and the
20- and 25-year anchors present.  The claim predicts the nearest available
anchor's rate (3.17, the 20-year rate); the code returns the absent
15-year slot, that is `undefined` (`none`), not a rate at all. -/
theorem C8_counterexample :
    interpolateRate 10 ⟨none, some (317 / 100), some (325 / 100)⟩ = none ∧
    interpolateRate 10 ⟨none, some (317 / 100), some (325 / 100)⟩ ≠
      some (317 / 100) := by
  constructor
  · norm_num [interpolateRate, rateLookup, optionTruthy]
  · norm_num [interpolateRate, rateLookup, optionTruthy]
    intro h
    exact Option.noConfusion h

/-- C8 (amended): for a nonzero duration outside the anchor range,
`interpolateRate` returns the content of the endpoint anchor slot itself
(the 15-year slot below the range, the 25-year slot above), whatever that
slot holds — the rate when the anchor is present, `undefined` (`none`) when
it is absent; it never substitutes the nearest present anchor. -/
theorem C8_endpoint_fallback (duration : ℚ) (rt : RateTable) (h0 : duration ≠ 0) :
    (duration < 15 → interpolateRate duration rt = rt.r15) ∧
    (25 < duration → interpolateRate duration rt = rt.r25) := by
  constructor
  · intro hlt
    have hlook : rateLookup rt duration = none := by
      unfold rateLookup
      rw [if_neg (by intro h; rw [h] at hlt; norm_num at hlt),
        if_neg (by intro h; rw [h] at hlt; norm_num at hlt),
        if_neg (by intro h; rw [h] at hlt; norm_num at hlt)]
    unfold interpolateRate
    rw [if_neg h0, hlook]
    simp only [optionTruthy, Bool.false_eq_true, if_false]
    rw [if_pos hlt]
  · intro hgt
    have hlook : rateLookup rt duration = none := by
      unfold rateLookup
      rw [if_neg (by intro h; rw [h] at hgt; norm_num at hgt),
        if_neg (by intro h; rw [h] at hgt; norm_num at hgt),
        if_neg (by intro h; rw [h] at hgt; norm_num at hgt)]
    unfold interpolateRate
    rw [if_neg h0, hlook]
    simp only [optionTruthy, Bool.false_eq_true, if_false]
    rw [if_neg (by linarith : ¬duration < 15),
      if_neg (by linarith : ¬duration ≤ 20),
      if_neg (by linarith : ¬duration ≤ 25)]

/-- C8 (witness): duration 10 against a fully populated table falls back to
the 15-year anchor slot. -/
theorem C8_witness :
    (10 : ℚ) ≠ 0 ∧
    (((10 : ℚ) < 15 → interpolateRate 10 ⟨some 3, some 4, some 5⟩ = some 3) ∧
      ((25 : ℚ) < 10 → interpolateRate 10 ⟨some 3, some 4, some 5⟩ = some 5)) :=
  ⟨by norm_num, C8_endpoint_fallback 10 ⟨some 3, some 4, some 5⟩ (by norm_num)⟩

/-! ## Monotonicity of the fee formulas and the required-loan counterexample (C7) -/

/-- Closed form of the emolument cascade: each tier contributes its rate
times the clipped portion of the price falling inside its bracket. -/
lemma calcEmoluments_eq (p : ℚ) :
    calcEmoluments p =
      (emolumentBracket4 * (max p emolumentTier3 - emolumentTier3)
        + emolumentBracket3 * (max (min p emolumentTier3) emolumentTier2 - emolumentTier2)
        + emolumentBracket2 * (max (min p emolumentTier2) emolumentTier1 - emolumentTier1)
        + emolumentBracket1 * max (min p emolumentTier1) 0) * emolumentTVA := by
  simp only [calcEmoluments, emolumentTier1, emolumentTier2, emolumentTier3]
  rcases le_or_lt p 0 with h0 | h0
  · simp only [if_neg (show ¬p > (60000 : ℚ) by linarith),
      if_neg (show ¬p > (17000 : ℚ) by linarith),
      if_neg (show ¬p > (6500 : ℚ) by linarith),
      if_neg (show ¬p > (0 : ℚ) by linarith)]
    rw [max_eq_right (show p ≤ (60000 : ℚ) by linarith),
      min_eq_left (show p ≤ (60000 : ℚ) by linarith),
      max_eq_right (show p ≤ (17000 : ℚ) by linarith),
      min_eq_left (show p ≤ (17000 : ℚ) by linarith),
      max_eq_right (show p ≤ (6500 : ℚ) by linarith),
      min_eq_left (show p ≤ (6500 : ℚ) by linarith),
      max_eq_right h0]
    ring
  · rcases le_or_lt p 6500 with h65 | h65
    · simp only [if_neg (show ¬p > (60000 : ℚ) by linarith),
        if_neg (show ¬p > (17000 : ℚ) by linarith),
        if_neg (show ¬p > (6500 : ℚ) by linarith),
        if_pos (show p > (0 : ℚ) by linarith)]
      rw [max_eq_right (show p ≤ (60000 : ℚ) by linarith),
        min_eq_left (show p ≤ (60000 : ℚ) by linarith),
        max_eq_right (show p ≤ (17000 : ℚ) by linarith),
        min_eq_left (show p ≤ (17000 : ℚ) by linarith),
        max_eq_right h65,
        min_eq_left h65,
        max_eq_left (show (0 : ℚ) ≤ p by linarith)]
      ring
    · rcases le_or_lt p 17000 with h17 | h17
      · simp only [if_neg (show ¬p > (60000 : ℚ) by linarith),
          if_neg (show ¬p > (17000 : ℚ) by linarith),
          if_pos (show p > (6500 : ℚ) by linarith),
          if_pos (show (6500 : ℚ) > (0 : ℚ) by norm_num)]
        rw [max_eq_right (show p ≤ (60000 : ℚ) by linarith),
          min_eq_left (show p ≤ (60000 : ℚ) by linarith),
          max_eq_right h17,
          min_eq_left h17,
          max_eq_left (show (6500 : ℚ) ≤ p by linarith),
          min_eq_right (show (6500 : ℚ) ≤ p by linarith),
          max_eq_left (show (0 : ℚ) ≤ (6500 : ℚ) by norm_num)]
        ring
      · rcases le_or_lt p 60000 with h60 | h60
        · simp only [if_neg (show ¬p > (60000 : ℚ) by linarith),
            if_pos (show p > (17000 : ℚ) by linarith),
            if_pos (show (17000 : ℚ) > (6500 : ℚ) by norm_num),
            if_pos (show (6500 : ℚ) > (0 : ℚ) by norm_num)]
          rw [max_eq_right h60,
            min_eq_left h60,
            max_eq_left (show (17000 : ℚ) ≤ p by linarith),
            min_eq_right (show (17000 : ℚ) ≤ p by linarith),
            max_eq_left (show (6500 : ℚ) ≤ (17000 : ℚ) by norm_num),
            min_eq_right (show (6500 : ℚ) ≤ p by linarith),
            max_eq_left (show (0 : ℚ) ≤ (6500 : ℚ) by norm_num)]
          ring
        · simp only [if_pos (show p > (60000 : ℚ) by linarith),
            if_pos (show (60000 : ℚ) > (17000 : ℚ) by norm_num),
            if_pos (show (17000 : ℚ) > (6500 : ℚ) by norm_num),
            if_pos (show (6500 : ℚ) > (0 : ℚ) by norm_num)]
          rw [max_eq_left (show (60000 : ℚ) ≤ p by linarith),
            min_eq_right (show (60000 : ℚ) ≤ p by linarith),
            max_eq_left (show (17000 : ℚ) ≤ (60000 : ℚ) by norm_num),
            min_eq_right (show (17000 : ℚ) ≤ p by linarith),
            max_eq_left (show (6500 : ℚ) ≤ (17000 : ℚ) by norm_num),
            min_eq_right (show (6500 : ℚ) ≤ p by linarith),
            max_eq_left (show (0 : ℚ) ≤ (6500 : ℚ) by norm_num)]
          ring

/-- The emolument cascade is monotone in the price. -/
lemma calcEmoluments_mono {p q : ℚ} (h : p ≤ q) :
    calcEmoluments p ≤ calcEmoluments q := by
  rw [calcEmoluments_eq, calcEmoluments_eq]
  have h1 : max p emolumentTier3 ≤ max q emolumentTier3 := max_le_max h le_rfl
  have h2 : max (min p emolumentTier3) emolumentTier2 ≤
      max (min q emolumentTier3) emolumentTier2 :=
    max_le_max (min_le_min h le_rfl) le_rfl
  have h3 : max (min p emolumentTier2) emolumentTier1 ≤
      max (min q emolumentTier2) emolumentTier1 :=
    max_le_max (min_le_min h le_rfl) le_rfl
  have h4 : max (min p emolumentTier1) 0 ≤ max (min q emolumentTier1) 0 :=
    max_le_max (min_le_min h le_rfl) le_rfl
  have hb4 : (0 : ℚ) ≤ emolumentBracket4 := by norm_num [emolumentBracket4]
  have hb3 : (0 : ℚ) ≤ emolumentBracket3 := by norm_num [emolumentBracket3]
  have hb2 : (0 : ℚ) ≤ emolumentBracket2 := by norm_num [emolumentBracket2]
  have hb1 : (0 : ℚ) ≤ emolumentBracket1 := by norm_num [emolumentBracket1]
  have ht1 := mul_le_mul_of_nonneg_left (sub_le_sub_right h1 emolumentTier3) hb4
  have ht2 := mul_le_mul_of_nonneg_left (sub_le_sub_right h2 emolumentTier2) hb3
  have ht3 := mul_le_mul_of_nonneg_left (sub_le_sub_right h3 emolumentTier1) hb2
  have ht4 := mul_le_mul_of_nonneg_left h4 hb1
  exact mul_le_mul_of_nonneg_right (by linarith)
    (show (0 : ℚ) ≤ emolumentTVA by norm_num [emolumentTVA])

/-- The emoluments are nonnegative. -/
lemma calcEmoluments_nonneg (p : ℚ) : 0 ≤ calcEmoluments p := by
  rw [calcEmoluments_eq]
  have h1 : (0 : ℚ) ≤ max p emolumentTier3 - emolumentTier3 :=
    sub_nonneg.mpr (le_max_right _ _)
  have h2 : (0 : ℚ) ≤ max (min p emolumentTier3) emolumentTier2 - emolumentTier2 :=
    sub_nonneg.mpr (le_max_right _ _)
  have h3 : (0 : ℚ) ≤ max (min p emolumentTier2) emolumentTier1 - emolumentTier1 :=
    sub_nonneg.mpr (le_max_right _ _)
  have h4 : (0 : ℚ) ≤ max (min p emolumentTier1) 0 := le_max_right _ _
  have hb4 : (0 : ℚ) ≤ emolumentBracket4 := by norm_num [emolumentBracket4]
  have hb3 : (0 : ℚ) ≤ emolumentBracket3 := by norm_num [emolumentBracket3]
  have hb2 : (0 : ℚ) ≤ emolumentBracket2 := by norm_num [emolumentBracket2]
  have hb1 : (0 : ℚ) ≤ emolumentBracket1 := by norm_num [emolumentBracket1]
  exact mul_nonneg
    (add_nonneg (add_nonneg (add_nonneg (mul_nonneg hb4 h1) (mul_nonneg hb3 h2))
      (mul_nonneg hb2 h3)) (mul_nonneg hb1 h4))
    (show (0 : ℚ) ≤ emolumentTVA by norm_num [emolumentTVA])

/-- C7 (amended): the fee side of the computation is monotone — increasing
the property price never decreases `calcNotaryFees` for either property
category; the end-to-end `calcRequiredLoan` is not monotone because its
convergence early-exit can freeze the initial estimate (see the
counterexample). -/
theorem C7_notaryFees_monotone (propertyType : PropertyType) (p q : ℚ) (hpq : p ≤ q) :
    calcNotaryFees p propertyType ≤ calcNotaryFees q propertyType := by
  have htax : 0 ≤ propertyTaxRate propertyType := by
    cases propertyType <;> norm_num [propertyTaxRate]
  unfold calcNotaryFees
  rcases le_or_lt q 0 with hq | hq
  · rw [if_pos (le_trans hpq hq), if_pos hq]
  · rw [if_neg (not_le.mpr hq)]
    rcases le_or_lt p 0 with hp | hp
    · rw [if_pos hp]
      have he := calcEmoluments_nonneg q
      have hc : (0 : ℚ) ≤ max contributionMinimum (q * contributionRate) :=
        le_trans (show (0 : ℚ) ≤ contributionMinimum by norm_num [contributionMinimum])
          (le_max_left _ _)
      have htx : 0 ≤ q * propertyTaxRate propertyType := mul_nonneg hq.le htax
      have hd : (0 : ℚ) ≤ deboursConst := by norm_num [deboursConst]
      linarith
    · rw [if_neg (not_le.mpr hp)]
      have h1 := calcEmoluments_mono hpq
      have h2 : p * propertyTaxRate propertyType ≤ q * propertyTaxRate propertyType :=
        mul_le_mul_of_nonneg_right hpq htax
      have h3 : max contributionMinimum (p * contributionRate) ≤
          max contributionMinimum (q * contributionRate) :=
        max_le_max le_rfl
          (mul_le_mul_of_nonneg_right hpq (by norm_num [contributionRate]))
      linarith

/-- C7 (witness): the notary fees for an old property at prices 100000 and
200000. -/
theorem C7_witness :
    (100000 : ℚ) ≤ 200000 ∧
      calcNotaryFees 100000 PropertyType.old ≤ calcNotaryFees 200000 PropertyType.old :=
  ⟨by norm_num, C7_notaryFees_monotone PropertyType.old 100000 200000 (by norm_num)⟩

/-- C7 (counterexample): with capital 33200, no dossier fee and an old
property, the required loan at price 30000 is 1238.94 but at the higher
price 30200 it is only 20: at 30200 the initial estimate
`1.1 * price - capital = 20` is within the 100-euro convergence threshold
of the starting `previousLoan = 0`, so the loop never runs and the grossly
underestimated initial guess is returned, breaking monotonicity in the
price. -/
theorem C7_counterexample :
    (30000 : ℚ) ≤ 30200 ∧
      (calcRequiredLoan 30200 33200 0 PropertyType.old).loan <
        (calcRequiredLoan 30000 33200 0 PropertyType.old).loan := by
  constructor
  · norm_num
  · have h1 : (calcRequiredLoan 30200 33200 0 PropertyType.old).loan = 20 := by
      with_unfolding_all rfl
    have h2 : (calcRequiredLoan 30000 33200 0 PropertyType.old).loan = 61947 / 50 := by
      with_unfolding_all rfl
    rw [h1, h2]
    norm_num

/-! ## Gigogne optimizer (C4, C5) -/

/-- Coefficient form of the secondary payment: `calcM2 p2 rm2 nm2` is linear
in `p2` with this coefficient. -/
def m2coef (rm2 : ℚ) (nm2 : ℕ) : ℚ :=
  if rm2 = 0 then ((nm2 : ℚ))⁻¹
  else rm2 * (1 + rm2) ^ nm2 / ((1 + rm2) ^ nm2 - 1)

/-- The secondary payment is linear in the secondary principal. -/
lemma calcM2_eq (p2 rm2 : ℚ) (nm2 : ℕ) :
    calcM2 p2 rm2 nm2 = p2 * m2coef rm2 nm2 := by
  unfold calcM2 m2coef
  split_ifs with h
  · exact div_eq_mul_inv _ _
  · exact mul_div_assoc _ _ _

/-- The annuity factor is positive for a nonnegative rate and a positive
number of months. -/
lemma calcAnnuityFactor_pos (r : ℚ) (n : ℕ) (hr : 0 ≤ r) (hn : n ≠ 0) :
    0 < calcAnnuityFactor r n := by
  unfold calcAnnuityFactor
  split_ifs with h
  · exact_mod_cast Nat.pos_of_ne_zero hn
  · have hr' : 0 < r := lt_of_le_of_ne hr (Ne.symm h)
    have hx : 1 < (1 + r) ^ n := one_lt_pow₀ (by linarith) hn
    have hxinv : ((1 + r) ^ n)⁻¹ < 1 := by
      rw [inv_lt_one_iff₀]
      right
      exact hx
    apply div_pos
    · linarith
    · exact hr'

/-- On the valid domain (nonnegative principals, positive durations) the
smooth payment is the closed blending formula. -/
lemma calcSmoothMensuality_eq (p1 r1 : ℚ) (n1 : ℕ) (p2 r2 : ℚ) (n2 : ℕ)
    (h1 : 0 ≤ p1) (h2 : 0 ≤ p2) (hn1 : n1 ≠ 0) (hn2 : n2 ≠ 0) :
    calcSmoothMensuality p1 r1 n1 p2 r2 n2 =
      (p1 + calcM2 p2 (r2 / 12 / 100) (n2 * 12) *
          calcAnnuityFactor (r1 / 12 / 100) (n2 * 12)) /
        calcAnnuityFactor (r1 / 12 / 100) (n1 * 12) := by
  unfold calcSmoothMensuality
  rw [if_neg (by push_neg; exact ⟨h1, h2, hn1, hn2⟩)]

/-- The slack of the no-negative-amortization constraint at secondary
principal `p2`: the blended payment minus the secondary payment minus the
interest of the primary tranche. -/
def gigogneGap (totalLoan r1 : ℚ) (n1 : ℕ) (r2 : ℚ) (n2 : ℕ) (p2 : ℚ) : ℚ :=
  calcSmoothMensuality (totalLoan - p2) r1 n1 p2 r2 n2
    - calcM2 p2 (r2 / 12 / 100) (n2 * 12)
    - (totalLoan - p2) * (r1 / 12 / 100)

/-- The boolean constraint check of the source holds exactly when the gap is
at least the `-0.01` tolerance. -/
lemma checkConstraints_iff (T r1 : ℚ) (n1 : ℕ) (r2 : ℚ) (n2 : ℕ) (p2 : ℚ) :
    checkConstraints T r1 n1 r2 n2 p2 = true ↔
      -(1 / 100 : ℚ) ≤ gigogneGap T r1 n1 r2 n2 p2 := by
  unfold checkConstraints gigogneGap
  rw [decide_eq_true_eq]
  constructor <;> intro h <;> linarith

/-- On the domain `0 ≤ p ≤ totalLoan` the gap is the explicit affine
expression in `p`. -/
lemma gigogneGap_eq (T r1 : ℚ) (n1 : ℕ) (r2 : ℚ) (n2 : ℕ) (p : ℚ)
    (hp0 : 0 ≤ p) (hpT : p ≤ T) (hn1 : n1 ≠ 0) (hn2 : n2 ≠ 0) :
    gigogneGap T r1 n1 r2 n2 p =
      ((T - p) + p * m2coef (r2 / 12 / 100) (n2 * 12) *
          calcAnnuityFactor (r1 / 12 / 100) (n2 * 12)) /
        calcAnnuityFactor (r1 / 12 / 100) (n1 * 12)
      - p * m2coef (r2 / 12 / 100) (n2 * 12)
      - (T - p) * (r1 / 12 / 100) := by
  unfold gigogneGap
  rw [calcSmoothMensuality_eq _ _ _ _ _ _ (by linarith) hp0 hn1 hn2, calcM2_eq]

/-- The gap at `p2 = 0` is nonnegative: the annuity payment of the primary
tranche alone covers its interest. -/
lemma gigogneGap_zero_nonneg (T r1 : ℚ) (n1 : ℕ) (r2 : ℚ) (n2 : ℕ)
    (hT : 0 ≤ T) (hr1 : 0 ≤ r1) (hn1 : n1 ≠ 0) (hn2 : n2 ≠ 0) :
    0 ≤ gigogneGap T r1 n1 r2 n2 0 := by
  have hg0 := gigogneGap_eq T r1 n1 r2 n2 0 le_rfl hT hn1 hn2
  have hrm1 : (0 : ℚ) ≤ r1 / 12 / 100 := by positivity
  have hA1 : 0 < calcAnnuityFactor (r1 / 12 / 100) (n1 * 12) :=
    calcAnnuityFactor_pos _ _ hrm1 (by simp [hn1])
  have hkey : (r1 / 12 / 100) * calcAnnuityFactor (r1 / 12 / 100) (n1 * 12) ≤ 1 := by
    unfold calcAnnuityFactor
    split_ifs with h
    · simp [h]
    · have hx : (0 : ℚ) < ((1 + r1 / 12 / 100) ^ (n1 * 12))⁻¹ := by
        have hb : (0 : ℚ) < (1 + r1 / 12 / 100) ^ (n1 * 12) := by positivity
        positivity
      have hcancel : (r1 / 12 / 100) *
          ((1 - ((1 + r1 / 12 / 100) ^ (n1 * 12))⁻¹) / (r1 / 12 / 100)) =
          1 - ((1 + r1 / 12 / 100) ^ (n1 * 12))⁻¹ := by
        rw [← mul_div_assoc, mul_div_cancel_left₀ _ h]
      rw [hcancel]
      linarith
  rw [hg0]
  have expand : ((T - 0) + 0 * m2coef (r2 / 12 / 100) (n2 * 12) *
        calcAnnuityFactor (r1 / 12 / 100) (n2 * 12)) /
      calcAnnuityFactor (r1 / 12 / 100) (n1 * 12)
      - 0 * m2coef (r2 / 12 / 100) (n2 * 12)
      - (T - 0) * (r1 / 12 / 100) =
      T / calcAnnuityFactor (r1 / 12 / 100) (n1 * 12) - T * (r1 / 12 / 100) := by
    ring
  rw [expand, sub_nonneg, le_div_iff₀ hA1]
  calc T * (r1 / 12 / 100) * calcAnnuityFactor (r1 / 12 / 100) (n1 * 12)
      = T * ((r1 / 12 / 100) * calcAnnuityFactor (r1 / 12 / 100) (n1 * 12)) := by ring
    _ ≤ T * 1 := mul_le_mul_of_nonneg_left hkey hT
    _ = T := mul_one T

/-- The gap is affine in `p2` on the valid domain, so between two domain
points it is at least the smaller endpoint value. -/
lemma gigogneGap_interp (T r1 : ℚ) (n1 : ℕ) (r2 : ℚ) (n2 : ℕ) (x o : ℚ)
    (hr1 : 0 ≤ r1) (hn1 : n1 ≠ 0) (hn2 : n2 ≠ 0)
    (hx0 : 0 ≤ x) (hxo : x ≤ o) (ho : 0 < o) (hoT : o ≤ T) :
    min (gigogneGap T r1 n1 r2 n2 0) (gigogneGap T r1 n1 r2 n2 o) ≤
      gigogneGap T r1 n1 r2 n2 x := by
  have hrm1 : (0 : ℚ) ≤ r1 / 12 / 100 := by positivity
  have hA1 : 0 < calcAnnuityFactor (r1 / 12 / 100) (n1 * 12) :=
    calcAnnuityFactor_pos _ _ hrm1 (by simp [hn1])
  have hA1ne : calcAnnuityFactor (r1 / 12 / 100) (n1 * 12) ≠ 0 := ne_of_gt hA1
  have hg0 := gigogneGap_eq T r1 n1 r2 n2 0 le_rfl (by linarith) hn1 hn2
  have hgo := gigogneGap_eq T r1 n1 r2 n2 o (by linarith) hoT hn1 hn2
  have hgx := gigogneGap_eq T r1 n1 r2 n2 x hx0 (by linarith) hn1 hn2
  have haff : gigogneGap T r1 n1 r2 n2 x * o =
      gigogneGap T r1 n1 r2 n2 0 * (o - x) + gigogneGap T r1 n1 r2 n2 o * x := by
    rw [hg0, hgo, hgx]
    field_simp
    ring
  have hm1 := min_le_left (gigogneGap T r1 n1 r2 n2 0) (gigogneGap T r1 n1 r2 n2 o)
  have hm2 := min_le_right (gigogneGap T r1 n1 r2 n2 0) (gigogneGap T r1 n1 r2 n2 o)
  nlinarith [mul_le_mul_of_nonneg_right hm1 (show (0 : ℚ) ≤ o - x by linarith),
    mul_le_mul_of_nonneg_right hm2 hx0]

/-- Invariant of the 20-step binary search: the result is nonnegative,
bounded by the initial upper bound, and either 0 or a value satisfying the
constraint check. -/
lemma gigogneSearchLoop_spec (T r1 : ℚ) (n1 : ℕ) (r2 : ℚ) (n2 : ℕ) (H0 : ℚ) :
    ∀ (k : ℕ) (low high optimal : ℚ),
      0 ≤ low → low ≤ high → high ≤ H0 → 0 ≤ optimal → optimal ≤ low →
      (optimal = 0 ∨ checkConstraints T r1 n1 r2 n2 optimal = true) →
      0 ≤ gigogneSearchLoop T r1 n1 r2 n2 k low high optimal ∧
        gigogneSearchLoop T r1 n1 r2 n2 k low high optimal ≤ H0 ∧
        (gigogneSearchLoop T r1 n1 r2 n2 k low high optimal = 0 ∨
          checkConstraints T r1 n1 r2 n2
            (gigogneSearchLoop T r1 n1 r2 n2 k low high optimal) = true) := by
  intro k
  induction k with
  | zero =>
    intro low high optimal h1 h2 h3 h4 h5 h6
    exact ⟨h4, le_trans h5 (le_trans h2 h3), h6⟩
  | succ k ih =>
    intro low high optimal h1 h2 h3 h4 h5 h6
    simp only [gigogneSearchLoop]
    split_ifs with hc
    · exact ih ((low + high) / 2) high ((low + high) / 2)
        (by linarith) (by linarith) h3 (by linarith) le_rfl (Or.inr hc)
    · exact ih low ((low + high) / 2) optimal h1 (by linarith) (by linarith) h4 h5 h6

/-- Bounds of the optimizer result: it lies between 0 and
`min maxAmount totalLoan`. -/
lemma calcOptimalSecondaryAmount_bounds (T r1 : ℚ) (n1 : ℕ) (r2 : ℚ) (n2 : ℕ)
    (maxA : ℚ) (hT : 0 ≤ T) (hmax : 0 ≤ maxA) :
    0 ≤ calcOptimalSecondaryAmount T r1 n1 r2 n2 maxA ∧
      calcOptimalSecondaryAmount T r1 n1 r2 n2 maxA ≤ min maxA T := by
  simp only [calcOptimalSecondaryAmount]
  split_ifs with h0 hc
  · exact ⟨le_rfl, le_min hmax hT⟩
  · exact ⟨le_min hmax hT, le_rfl⟩
  · have habs : (0 : ℚ) ≤ min maxA T := le_min hmax hT
    obtain ⟨hs0, hsH, _⟩ := gigogneSearchLoop_spec T r1 n1 r2 n2 (min maxA T) 20 0
      (min maxA T) 0 le_rfl habs le_rfl le_rfl le_rfl (Or.inl rfl)
    constructor
    · exact_mod_cast Int.floor_nonneg.mpr hs0
    · calc ((⌊gigogneSearchLoop T r1 n1 r2 n2 20 0 (min maxA T) 0⌋ : ℤ) : ℚ)
          ≤ gigogneSearchLoop T r1 n1 r2 n2 20 0 (min maxA T) 0 := Int.floor_le _
        _ ≤ min maxA T := hsH

/-- C4: for the secondary amount returned by `calcOptimalSecondaryAmount`
(with primary `p1 = totalLoan - p2`, blended payment from
`calcSmoothMensuality` and secondary payment `m2`), the
no-negative-amortization constraint `M - m2 ≥ p1 * r1_monthly - 0.01`
holds at every month of the overlap: the capped candidate is returned only
when the check passes, the binary-search optimum always satisfies the check
(or is 0, where the slack is nonnegative), and flooring the optimum stays
safe because the slack is affine in `p2` and nonnegative at `p2 = 0`. -/
theorem C4_no_negative_amortization (T r1 r2 maxA : ℚ) (n1 n2 : ℕ)
    (hT : 0 < T) (hr1 : 0 ≤ r1) (hn1 : n1 ≠ 0) (hn2 : n2 ≠ 0) (hmax : 0 ≤ maxA) :
    ∀ month : ℕ, 1 ≤ month → month ≤ n2 * 12 →
      calcSmoothMensuality (T - calcOptimalSecondaryAmount T r1 n1 r2 n2 maxA) r1 n1
          (calcOptimalSecondaryAmount T r1 n1 r2 n2 maxA) r2 n2
        - calcM2 (calcOptimalSecondaryAmount T r1 n1 r2 n2 maxA) (r2 / 12 / 100) (n2 * 12)
        ≥ (T - calcOptimalSecondaryAmount T r1 n1 r2 n2 maxA) * (r1 / 12 / 100)
          - 1 / 100 := by
  intro month hm1 hm2
  have key : -(1 / 100 : ℚ) ≤
      gigogneGap T r1 n1 r2 n2 (calcOptimalSecondaryAmount T r1 n1 r2 n2 maxA) := by
    simp only [calcOptimalSecondaryAmount]
    split_ifs with h0 hc
    · exact absurd h0 (not_le.mpr hT)
    · exact (checkConstraints_iff T r1 n1 r2 n2 (min maxA T)).mp hc
    · have habs : (0 : ℚ) ≤ min maxA T := le_min hmax hT.le
      obtain ⟨hs0, hsH, hsCheck⟩ := gigogneSearchLoop_spec T r1 n1 r2 n2 (min maxA T) 20 0
        (min maxA T) 0 le_rfl habs le_rfl le_rfl le_rfl (Or.inl rfl)
      set s := gigogneSearchLoop T r1 n1 r2 n2 20 0 (min maxA T) 0 with hsdef
      rcases eq_or_lt_of_le hs0 with hseq | hspos
      · have hfl : ((⌊s⌋ : ℤ) : ℚ) = 0 := by
          rw [← hseq]
          simp
        rw [hfl]
        linarith [gigogneGap_zero_nonneg T r1 n1 r2 n2 hT.le hr1 hn1 hn2]
      · have hcheck : checkConstraints T r1 n1 r2 n2 s = true := by
          rcases hsCheck with h | h
          · exact absurd h (by intro h'; rw [h'] at hspos; exact lt_irrefl 0 hspos)
          · exact h
        have hgap_s : -(1 / 100 : ℚ) ≤ gigogneGap T r1 n1 r2 n2 s :=
          (checkConstraints_iff T r1 n1 r2 n2 s).mp hcheck
        have hfl0 : (0 : ℚ) ≤ ((⌊s⌋ : ℤ) : ℚ) := by
          exact_mod_cast Int.floor_nonneg.mpr hs0
        have hfls : ((⌊s⌋ : ℤ) : ℚ) ≤ s := Int.floor_le s
        have hinterp := gigogneGap_interp T r1 n1 r2 n2 ((⌊s⌋ : ℤ) : ℚ) s
          hr1 hn1 hn2 hfl0 hfls hspos (le_trans hsH (min_le_right _ _))
        have hgap0 := gigogneGap_zero_nonneg T r1 n1 r2 n2 hT.le hr1 hn1 hn2
        have hminlb : -(1 / 100 : ℚ) ≤
            min (gigogneGap T r1 n1 r2 n2 0) (gigogneGap T r1 n1 r2 n2 s) :=
          le_min (by linarith) hgap_s
        linarith
  unfold gigogneGap at key
  linarith

/-- C4 (witness): total loan 100000, primary 3 percent over 20 years,
secondary 1 percent over 10 years, user cap 30000, month 1 of the overlap. -/
theorem C4_witness :
    (0 : ℚ) < 100000 ∧ (0 : ℚ) ≤ 3 ∧ (20 : ℕ) ≠ 0 ∧ (10 : ℕ) ≠ 0 ∧ (0 : ℚ) ≤ 30000 ∧
      1 ≤ 10 * 12 ∧
      (calcSmoothMensuality (100000 - calcOptimalSecondaryAmount 100000 3 20 1 10 30000) 3 20
          (calcOptimalSecondaryAmount 100000 3 20 1 10 30000) 1 10
        - calcM2 (calcOptimalSecondaryAmount 100000 3 20 1 10 30000) (1 / 12 / 100) (10 * 12)
        ≥ (100000 - calcOptimalSecondaryAmount 100000 3 20 1 10 30000) * (3 / 12 / 100)
          - 1 / 100) :=
  ⟨by norm_num, by norm_num, by norm_num, by norm_num, by norm_num, by norm_num,
    C4_no_negative_amortization 100000 3 1 30000 20 10 (by norm_num) (by norm_num)
      (by norm_num) (by norm_num) (by norm_num) 1 le_rfl (by norm_num)⟩

/-- C5: the optimizer never returns more than `min maxAmount totalLoan`, and
the stored actual amount of `setGigogneOptimalAmount` therefore equals the
three-way minimum of the computed optimum, the user maximum and the total
required loan. -/
theorem C5_actual_secondary_is_min (T r1 r2 maxA : ℚ) (n1 n2 : ℕ)
    (hT : 0 ≤ T) (hmax : 0 ≤ maxA) :
    calcOptimalSecondaryAmount T r1 n1 r2 n2 maxA ≤ min maxA T ∧
      setGigogneActualAmount (calcOptimalSecondaryAmount T r1 n1 r2 n2 maxA) maxA =
        min (calcOptimalSecondaryAmount T r1 n1 r2 n2 maxA) (min maxA T) := by
  obtain ⟨h0, hle⟩ := calcOptimalSecondaryAmount_bounds T r1 n1 r2 n2 maxA hT hmax
  refine ⟨hle, ?_⟩
  unfold setGigogneActualAmount
  rw [min_eq_left (le_trans hle (min_le_left _ _)), min_eq_left hle]

/-- C5 (witness): the clamp chain at total loan 100000, rates 3 and 1
percent, durations 20 and 10 years, user cap 30000. -/
theorem C5_witness :
    (0 : ℚ) ≤ 100000 ∧ (0 : ℚ) ≤ 30000 ∧
      (calcOptimalSecondaryAmount 100000 3 20 1 10 30000 ≤ min 30000 100000 ∧
        setGigogneActualAmount (calcOptimalSecondaryAmount 100000 3 20 1 10 30000) 30000 =
          min (calcOptimalSecondaryAmount 100000 3 20 1 10 30000) (min 30000 100000)) :=
  ⟨by norm_num, by norm_num,
    C5_actual_secondary_is_min 100000 3 1 30000 20 10 (by norm_num) (by norm_num)⟩
